import Mathlib

/-!
Verification of the ai-tutor rule engines against their specification.

Shallow embedding of the three rule engines of the repository:
the Leveling Engine (`models/constants.py`), the Achievement Evaluator
(`tools/achievement_tool.py`), the Adaptive Progression Controller
(`tools/section_generator.py`) and the Progress Analyzer
(`tools/progress_analyzer.py`).  Pure Python functions are translated
into computable Lean functions; Python dicts with `.get` defaults are
modelled as structures with `Option` fields plus extractor functions;
Python exceptions are modelled with `Except`.
-/

namespace AITutor

/-! ## Leveling Engine (`models/constants.py`) -/

/-- Embeds `calculate_xp_for_level` from `models/constants.py`:
`int(100 * (1.5 ** (level - 1)))`.  For `level ≤ 30` the double-precision
value `100 * 1.5^(level-1) = 25 * 3^(level-1) / 2^(level-3)` has a numerator
below `2^53`, so the Python float is exact and `int` truncation equals this
integer Nat-division formula. -/
def calculate_xp_for_level (level : Nat) : Nat :=
  (100 * 3 ^ (level - 1)) / 2 ^ (level - 1)

/-- Embeds the `LEVEL_XP_THRESHOLDS` dict from `models/constants.py`
(keys 1..30; other keys are absent from the source dict and mapped to 0). -/
def LEVEL_XP_THRESHOLDS : Nat → Nat
  | 1 => 0 | 2 => 100 | 3 => 250 | 4 => 475 | 5 => 813
  | 6 => 1319 | 7 => 2079 | 8 => 3219 | 9 => 4928 | 10 => 7493
  | 11 => 11339 | 12 => 17109 | 13 => 25763 | 14 => 38745 | 15 => 58217
  | 16 => 87426 | 17 => 131239 | 18 => 196959 | 19 => 295538 | 20 => 443407
  | 21 => 665211 | 22 => 997916 | 23 => 1496974 | 24 => 2245561 | 25 => 3368442
  | 26 => 5052763 | 27 => 7579245 | 28 => 11368967 | 29 => 17053551 | 30 => 25580426
  | _ => 0

/-- `levelForXp`, as the specification defines it: the largest level `L` in
1..30 whose entry in `LEVEL_XP_THRESHOLDS` is at most the given total XP.
The thresholds are strictly increasing, so the last satisfying entry of the
ascending scan is the maximum. -/
def levelForXp (totalXp : Nat) : Nat :=
  ((List.range' 1 30).filter (fun L => LEVEL_XP_THRESHOLDS L ≤ totalXp)).getLastD 1

/-! ## Achievement catalog (`models/constants.py`, `models/achievement_definitions.py`) -/

/-- The `AchievementType` enum from `models/constants.py`. -/
inductive AchievementType
  | WORD_SPROUT | WORD_COLLECTOR | WORD_WIZARD | WORD_EXPERT | VOCABULARY_MASTER
  | GRAMMAR_ROOKIE | GRAMMAR_GURU | GRAMMAR_EXPERT | GRAMMAR_MASTER
  | FIRST_LESSON | BOOKWORM | AVID_READER | LIBRARY_CARD | LITERATURE_LOVER | READING_CHAMPION
  | HOT_STREAK | DEDICATED_LEARNER | WEEK_WARRIOR | UNSTOPPABLE | PERSISTENT_LEGEND
  | QUICK_DRAW | SPEED_DEMON | LIGHTNING_FAST | TIME_MASTER
  | SHARPSHOOTER | ACE_STUDENT | PERFECTIONIST | CHAMPION | FLAWLESS
  | LEVEL_5 | LEVEL_10 | LEVEL_15 | LEVEL_20 | LEVEL_30
  | EARLY_BIRD | NIGHT_OWL | WEEKEND_WARRIOR | COMEBACK_KID | HELPING_HAND
deriving DecidableEq, Repr

/-- The string `.value` of each `AchievementType` member. -/
def AchievementType.value : AchievementType → String
  | .WORD_SPROUT => "word_sprout_10"
  | .WORD_COLLECTOR => "word_collector_50"
  | .WORD_WIZARD => "word_wizard_100"
  | .WORD_EXPERT => "word_expert_250"
  | .VOCABULARY_MASTER => "vocabulary_master_500"
  | .GRAMMAR_ROOKIE => "grammar_rookie_first"
  | .GRAMMAR_GURU => "grammar_guru_5"
  | .GRAMMAR_EXPERT => "grammar_expert_10"
  | .GRAMMAR_MASTER => "grammar_master_20"
  | .FIRST_LESSON => "first_lesson"
  | .BOOKWORM => "bookworm_10"
  | .AVID_READER => "avid_reader_25"
  | .LIBRARY_CARD => "library_card_50"
  | .LITERATURE_LOVER => "literature_lover_100"
  | .READING_CHAMPION => "reading_champion_250"
  | .HOT_STREAK => "hot_streak_3"
  | .DEDICATED_LEARNER => "dedicated_learner_7"
  | .WEEK_WARRIOR => "week_warrior_14"
  | .UNSTOPPABLE => "unstoppable_30"
  | .PERSISTENT_LEGEND => "persistent_legend_100"
  | .QUICK_DRAW => "quick_draw"
  | .SPEED_DEMON => "speed_demon_10"
  | .LIGHTNING_FAST => "lightning_fast_50"
  | .TIME_MASTER => "time_master_100"
  | .SHARPSHOOTER => "sharpshooter_90"
  | .ACE_STUDENT => "ace_student_5"
  | .PERFECTIONIST => "perfectionist_100"
  | .CHAMPION => "champion_5"
  | .FLAWLESS => "flawless_20"
  | .LEVEL_5 => "level_5"
  | .LEVEL_10 => "level_10"
  | .LEVEL_15 => "level_15"
  | .LEVEL_20 => "level_20"
  | .LEVEL_30 => "level_30"
  | .EARLY_BIRD => "early_bird"
  | .NIGHT_OWL => "night_owl"
  | .WEEKEND_WARRIOR => "weekend_warrior_4"
  | .COMEBACK_KID => "comeback_kid"
  | .HELPING_HAND => "helping_hand"

/-- The `BadgeRarity` enum from `models/constants.py`. -/
inductive BadgeRarity
  | COMMON | UNCOMMON | RARE | EPIC | LEGENDARY
deriving DecidableEq, Repr

def BadgeRarity.value : BadgeRarity → String
  | .COMMON => "common"
  | .UNCOMMON => "uncommon"
  | .RARE => "rare"
  | .EPIC => "epic"
  | .LEGENDARY => "legendary"

/-- One entry of the `ACHIEVEMENT_DEFINITIONS` dict
(`models/achievement_definitions.py`).  `criteria` is the entry's criteria
dict as an association list; numeric thresholds are kept as `Nat`
(`COMEBACK_KID`'s boolean criterion `True` is encoded as 1; the evaluator
never reads it). -/
structure AchievementDef where
  title : String
  description : String
  icon : String
  color : String
  xp_reward : Nat
  rarity : BadgeRarity
  category : String
  criteria : List (String × Nat)
deriving DecidableEq, Repr

/-- The `ACHIEVEMENT_DEFINITIONS` dict from
`models/achievement_definitions.py`.  The source dict has an entry for
every `AchievementType` member, so it is modelled as a total function. -/
def ACHIEVEMENT_DEFINITIONS : AchievementType → AchievementDef
  | .WORD_SPROUT =>
    ⟨"Word Sprout", "Learned your first 10 vocabulary words", "🌱", "#10b981",
     50, .COMMON, "vocabulary", [("words_learned", 10)]⟩
  | .WORD_COLLECTOR =>
    ⟨"Word Collector", "Mastered 50 vocabulary words", "📚", "#059669",
     150, .UNCOMMON, "vocabulary", [("words_learned", 50)]⟩
  | .WORD_WIZARD =>
    ⟨"Word Wizard", "Conquered 100 vocabulary words!", "🧙‍♂️", "#3b82f6",
     300, .RARE, "vocabulary", [("words_learned", 100)]⟩
  | .WORD_EXPERT =>
    ⟨"Word Expert", "Incredible! 250 vocabulary words mastered", "🎯", "#8b5cf6",
     600, .EPIC, "vocabulary", [("words_learned", 250)]⟩
  | .VOCABULARY_MASTER =>
    ⟨"Vocabulary Master", "Legendary! 500 vocabulary words conquered!", "🎓", "#f59e0b",
     1000, .LEGENDARY, "vocabulary", [("words_learned", 500)]⟩
  | .GRAMMAR_ROOKIE =>
    ⟨"Grammar Rookie", "First perfect grammar quiz!", "✍️", "#10b981",
     75, .COMMON, "grammar", [("perfect_grammar_quizzes", 1)]⟩
  | .GRAMMAR_GURU =>
    ⟨"Grammar Guru", "5 perfect grammar quizzes", "📝", "#3b82f6",
     250, .RARE, "grammar", [("perfect_grammar_quizzes", 5)]⟩
  | .GRAMMAR_EXPERT =>
    ⟨"Grammar Expert", "10 perfect grammar quizzes!", "📖", "#a855f7",
     500, .EPIC, "grammar", [("perfect_grammar_quizzes", 10)]⟩
  | .GRAMMAR_MASTER =>
    ⟨"Grammar Master", "20 perfect grammar quizzes! You're unstoppable!", "🎓", "#f59e0b",
     1000, .LEGENDARY, "grammar", [("perfect_grammar_quizzes", 20)]⟩
  | .FIRST_LESSON =>
    ⟨"Getting Started", "Completed your very first lesson!", "🎯", "#3b82f6",
     25, .COMMON, "reading", [("lessons_completed", 1)]⟩
  | .BOOKWORM =>
    ⟨"Bookworm", "Read 10 lessons", "📖", "#10b981",
     100, .UNCOMMON, "reading", [("lessons_completed", 10)]⟩
  | .AVID_READER =>
    ⟨"Avid Reader", "Completed 25 lessons!", "📚", "#059669",
     200, .UNCOMMON, "reading", [("lessons_completed", 25)]⟩
  | .LIBRARY_CARD =>
    ⟨"Library Card", "50 lessons read! Amazing dedication", "🏛️", "#3b82f6",
     400, .RARE, "reading", [("lessons_completed", 50)]⟩
  | .LITERATURE_LOVER =>
    ⟨"Literature Lover", "100 lessons! You're a reading champion!", "🏆", "#a855f7",
     800, .EPIC, "reading", [("lessons_completed", 100)]⟩
  | .READING_CHAMPION =>
    ⟨"Reading Champion", "250 lessons! Legendary dedication!", "👑", "#f59e0b",
     1500, .LEGENDARY, "reading", [("lessons_completed", 250)]⟩
  | .HOT_STREAK =>
    ⟨"Hot Streak", "Learned 3 days in a row!", "🔥", "#f59e0b",
     75, .UNCOMMON, "streak", [("consecutive_days", 3)]⟩
  | .DEDICATED_LEARNER =>
    ⟨"Dedicated Learner", "7 day streak! A full week!", "🌟", "#3b82f6",
     200, .RARE, "streak", [("consecutive_days", 7)]⟩
  | .WEEK_WARRIOR =>
    ⟨"Week Warrior", "2 weeks straight! Incredible commitment!", "💪", "#a855f7",
     400, .EPIC, "streak", [("consecutive_days", 14)]⟩
  | .UNSTOPPABLE =>
    ⟨"Unstoppable", "30 days! You're a learning machine!", "⚡", "#f59e0b",
     1000, .LEGENDARY, "streak", [("consecutive_days", 30)]⟩
  | .PERSISTENT_LEGEND =>
    ⟨"Persistent Legend", "100 days! Absolutely legendary!", "👑", "#f59e0b",
     2500, .LEGENDARY, "streak", [("consecutive_days", 100)]⟩
  | .QUICK_DRAW =>
    ⟨"Quick Draw", "Answered in under 5 seconds!", "⚡", "#f59e0b",
     50, .COMMON, "speed", [("fast_answers", 1)]⟩
  | .SPEED_DEMON =>
    ⟨"Speed Demon", "10 lightning-fast answers!", "🚀", "#10b981",
     150, .UNCOMMON, "speed", [("fast_answers", 10)]⟩
  | .LIGHTNING_FAST =>
    ⟨"Lightning Fast", "50 super-fast answers!", "⚡", "#3b82f6",
     400, .RARE, "speed", [("fast_answers", 50)]⟩
  | .TIME_MASTER =>
    ⟨"Time Master", "100 rapid-fire answers! Incredible reflexes!", "⏱️", "#f59e0b",
     800, .LEGENDARY, "speed", [("fast_answers", 100)]⟩
  | .SHARPSHOOTER =>
    ⟨"Sharpshooter", "First quiz with 90% or higher!", "🎯", "#10b981",
     75, .COMMON, "accuracy", [("high_score_quizzes", 1), ("threshold", 90)]⟩
  | .ACE_STUDENT =>
    ⟨"Ace Student", "5 quizzes with 90% or higher!", "🌟", "#3b82f6",
     250, .RARE, "accuracy", [("high_score_quizzes", 5), ("threshold", 90)]⟩
  | .PERFECTIONIST =>
    ⟨"Perfectionist", "Perfect score! 100% on a quiz!", "💯", "#a855f7",
     200, .RARE, "accuracy", [("perfect_quizzes", 1)]⟩
  | .CHAMPION =>
    ⟨"Champion", "5 perfect quizzes! You're a champion!", "🏅", "#a855f7",
     600, .EPIC, "accuracy", [("perfect_quizzes", 5)]⟩
  | .FLAWLESS =>
    ⟨"Flawless", "20 perfect quizzes! Absolutely flawless!", "💎", "#f59e0b",
     1500, .LEGENDARY, "accuracy", [("perfect_quizzes", 20)]⟩
  | .LEVEL_5 =>
    ⟨"Apprentice", "Reached Level 5!", "🎖️", "#10b981",
     100, .UNCOMMON, "level", [("level", 5)]⟩
  | .LEVEL_10 =>
    ⟨"Scholar", "Level 10 achieved!", "📚", "#3b82f6",
     250, .RARE, "level", [("level", 10)]⟩
  | .LEVEL_15 =>
    ⟨"Expert", "Level 15! You're an expert now!", "⭐", "#8b5cf6",
     500, .EPIC, "level", [("level", 15)]⟩
  | .LEVEL_20 =>
    ⟨"Master", "Level 20! Master of English!", "🏆", "#a855f7",
     800, .EPIC, "level", [("level", 20)]⟩
  | .LEVEL_30 =>
    ⟨"Legend", "Level 30! You're a LEGEND!", "👑", "#f59e0b",
     2000, .LEGENDARY, "level", [("level", 30)]⟩
  | .EARLY_BIRD =>
    ⟨"Early Bird", "Completed a lesson before 8 AM!", "🌅", "#f59e0b",
     50, .UNCOMMON, "special", [("morning_lessons", 1)]⟩
  | .NIGHT_OWL =>
    ⟨"Night Owl", "Learning after 10 PM! Dedication!", "🦉", "#6366f1",
     50, .UNCOMMON, "special", [("night_lessons", 1)]⟩
  | .WEEKEND_WARRIOR =>
    ⟨"Weekend Warrior", "4 weekend learning sessions!", "🎖️", "#10b981",
     100, .UNCOMMON, "special", [("weekend_sessions", 4)]⟩
  | .COMEBACK_KID =>
    ⟨"Comeback Kid", "Returned after a break! Welcome back!", "💪", "#8b5cf6",
     75, .UNCOMMON, "special", [("comeback", 1)]⟩
  | .HELPING_HAND =>
    ⟨"Helping Hand", "Shared your achievement!", "🤝", "#ec4899",
     50, .COMMON, "special", [("achievements_shared", 1)]⟩

/-- `get_achievement_definition` from `models/achievement_definitions.py`:
`ACHIEVEMENT_DEFINITIONS.get(achievement_type, {})`.  The dict is total over
`AchievementType`, so the empty-dict (falsy) default is never returned;
the `Option` mirrors the lookup interface used by the evaluator. -/
def get_achievement_definition (achievement_type : AchievementType) : Option AchievementDef :=
  some (ACHIEVEMENT_DEFINITIONS achievement_type)

/-! ## Achievement Evaluator (`tools/achievement_tool.py`) -/

/-- The `current_progress` dict of `check_and_award_achievements`, restricted
to the keys the evaluator reads (lines 36-42, 76, 112 of
`tools/achievement_tool.py`).  An absent key is `none`; the numeric values
are the non-negative integer counters of the student record. -/
structure Progress where
  total_words_learned : Option Nat
  total_lessons_completed : Option Nat
  current_streak_days : Option Nat
  perfect_quiz_count : Option Nat
  high_score_quiz_count : Option Nat
  fast_answer_count : Option Nat
  current_level : Option Nat
  last_quiz_score : Option Nat
  quiz_topic : Option String
deriving DecidableEq, Repr

/-- The empty progress dict (all keys absent). -/
def Progress.empty : Progress := ⟨none, none, none, none, none, none, none, none, none⟩

/-- `current_progress.get("total_words_learned", 0)`. -/
def Progress.words_learned (p : Progress) : Nat := p.total_words_learned.getD 0

/-- `current_progress.get("total_lessons_completed", 0)`. -/
def Progress.lessons_completed (p : Progress) : Nat := p.total_lessons_completed.getD 0

/-- `current_progress.get("current_streak_days", 0)`. -/
def Progress.consecutive_days (p : Progress) : Nat := p.current_streak_days.getD 0

/-- `current_progress.get("perfect_quiz_count", 0)`. -/
def Progress.perfect_quizzes (p : Progress) : Nat := p.perfect_quiz_count.getD 0

/-- `current_progress.get("high_score_quiz_count", 0)`. -/
def Progress.high_score_quizzes (p : Progress) : Nat := p.high_score_quiz_count.getD 0

/-- `current_progress.get("fast_answer_count", 0)`. -/
def Progress.fast_answers (p : Progress) : Nat := p.fast_answer_count.getD 0

/-- `current_progress.get("current_level", 1)`. -/
def Progress.level (p : Progress) : Nat := p.current_level.getD 1

/-- `current_progress.get("last_quiz_score", 0)`. -/
def Progress.quiz_score (p : Progress) : Nat := p.last_quiz_score.getD 0

/-- `current_progress.get("quiz_topic", "")`. -/
def Progress.topic (p : Progress) : String := p.quiz_topic.getD ""

/-- `sub` occurs as a contiguous run inside `l`. -/
def occursIn (sub : List Char) (l : List Char) : Bool :=
  match l with
  | [] => sub.isEmpty
  | c :: rest => sub.isPrefixOf (c :: rest) || occursIn sub rest

/-- Python's `s.find(sub) >= 0`: `sub` occurs as a contiguous substring of
`s`. -/
def containsSub (s sub : String) : Bool := occursIn sub.toList s.toList

/-- Line 76 of `tools/achievement_tool.py`:
`current_progress.get("quiz_topic", "").lower().find("grammar") >= 0`. -/
def Progress.grammarTopic (p : Progress) : Bool := containsSub p.topic.toLower "grammar"

/-- One threshold test of the evaluator: append the achievement when its
counter condition holds and it is not already earned (one `if ... :
achievements_to_check.append(...)` statement of the source). -/
def tierCheck (cond : Prop) [Decidable cond] (a : AchievementType) (earned : List String) :
    List AchievementType :=
  if cond ∧ a.value ∉ earned then [a] else []

/-- Vocabulary block, lines 48-58. -/
def vocabularyChecks (p : Progress) (e : List String) : List AchievementType :=
  tierCheck (p.words_learned ≥ 10) .WORD_SPROUT e ++
  tierCheck (p.words_learned ≥ 50) .WORD_COLLECTOR e ++
  tierCheck (p.words_learned ≥ 100) .WORD_WIZARD e ++
  tierCheck (p.words_learned ≥ 250) .WORD_EXPERT e ++
  tierCheck (p.words_learned ≥ 500) .VOCABULARY_MASTER e

/-- Reading block, lines 61-73. -/
def readingChecks (p : Progress) (e : List String) : List AchievementType :=
  tierCheck (p.lessons_completed ≥ 1) .FIRST_LESSON e ++
  tierCheck (p.lessons_completed ≥ 10) .BOOKWORM e ++
  tierCheck (p.lessons_completed ≥ 25) .AVID_READER e ++
  tierCheck (p.lessons_completed ≥ 50) .LIBRARY_CARD e ++
  tierCheck (p.lessons_completed ≥ 100) .LITERATURE_LOVER e ++
  tierCheck (p.lessons_completed ≥ 250) .READING_CHAMPION e

/-- Grammar block, lines 76-84 (the trigger/topic guard lives in
`achievementsToCheck`). -/
def grammarChecks (p : Progress) (e : List String) : List AchievementType :=
  tierCheck (p.perfect_quizzes ≥ 1) .GRAMMAR_ROOKIE e ++
  tierCheck (p.perfect_quizzes ≥ 5) .GRAMMAR_GURU e ++
  tierCheck (p.perfect_quizzes ≥ 10) .GRAMMAR_EXPERT e ++
  tierCheck (p.perfect_quizzes ≥ 20) .GRAMMAR_MASTER e

/-- Streak block, lines 87-97. -/
def streakChecks (p : Progress) (e : List String) : List AchievementType :=
  tierCheck (p.consecutive_days ≥ 3) .HOT_STREAK e ++
  tierCheck (p.consecutive_days ≥ 7) .DEDICATED_LEARNER e ++
  tierCheck (p.consecutive_days ≥ 14) .WEEK_WARRIOR e ++
  tierCheck (p.consecutive_days ≥ 30) .UNSTOPPABLE e ++
  tierCheck (p.consecutive_days ≥ 100) .PERSISTENT_LEGEND e

/-- Speed block, lines 100-108. -/
def speedChecks (p : Progress) (e : List String) : List AchievementType :=
  tierCheck (p.fast_answers ≥ 1) .QUICK_DRAW e ++
  tierCheck (p.fast_answers ≥ 10) .SPEED_DEMON e ++
  tierCheck (p.fast_answers ≥ 50) .LIGHTNING_FAST e ++
  tierCheck (p.fast_answers ≥ 100) .TIME_MASTER e

/-- Accuracy block, lines 111-122 (`quiz_score` is
`current_progress.get("last_quiz_score", 0)`). -/
def accuracyChecks (p : Progress) (e : List String) : List AchievementType :=
  tierCheck (p.quiz_score ≥ 90 ∧ p.high_score_quizzes ≥ 1) .SHARPSHOOTER e ++
  tierCheck (p.high_score_quizzes ≥ 5) .ACE_STUDENT e ++
  tierCheck (p.quiz_score = 100) .PERFECTIONIST e ++
  tierCheck (p.perfect_quizzes ≥ 5) .CHAMPION e ++
  tierCheck (p.perfect_quizzes ≥ 20) .FLAWLESS e

/-- Level block, lines 125-135. -/
def levelChecks (p : Progress) (e : List String) : List AchievementType :=
  tierCheck (p.level ≥ 5) .LEVEL_5 e ++
  tierCheck (p.level ≥ 10) .LEVEL_10 e ++
  tierCheck (p.level ≥ 15) .LEVEL_15 e ++
  tierCheck (p.level ≥ 20) .LEVEL_20 e ++
  tierCheck (p.level ≥ 30) .LEVEL_30 e

/-- The `achievements_to_check` list built by lines 45-135 of
`tools/achievement_tool.py`, in source order. -/
def achievementsToCheck (trigger_event : String) (p : Progress) (e : List String) :
    List AchievementType :=
  (if trigger_event = "lesson_completed" ∨ trigger_event = "quiz_completed"
   then vocabularyChecks p e else []) ++
  (if trigger_event = "lesson_completed" then readingChecks p e else []) ++
  (if trigger_event = "quiz_perfect" ∧ p.grammarTopic = true then grammarChecks p e else []) ++
  (if trigger_event = "daily_streak_updated" then streakChecks p e else []) ++
  (if trigger_event = "fast_answer" then speedChecks p e else []) ++
  (if trigger_event = "quiz_completed" then accuracyChecks p e else []) ++
  (if trigger_event = "level_up" then levelChecks p e else [])

/-- `vocabulary_sequence` from `_calculate_progress_to_next`
(lines 177-183 of `tools/achievement_tool.py`). -/
def vocabulary_sequence : List AchievementType :=
  [.WORD_SPROUT, .WORD_COLLECTOR, .WORD_WIZARD, .WORD_EXPERT, .VOCABULARY_MASTER]

/-- `reading_sequence` from `_calculate_progress_to_next`
(lines 185-192 of `tools/achievement_tool.py`). -/
def reading_sequence : List AchievementType :=
  [.FIRST_LESSON, .BOOKWORM, .AVID_READER, .LIBRARY_CARD, .LITERATURE_LOVER, .READING_CHAMPION]

/-- The "progress towards next" dict built by `_calculate_progress_to_next`. -/
structure ProgressToNext where
  next_achievement : String
  current : Nat
  target : Nat
  percentage : Nat
deriving DecidableEq, Repr

/-- `⌊log₂ n⌋` (0 for `n = 0`), by structural recursion on a fuel bound so
that it reduces in the kernel. -/
def natLog2Aux : Nat → Nat → Nat
  | 0, _ => 0
  | fuel + 1, n => if 2 ≤ n then natLog2Aux fuel (n / 2) + 1 else 0

def natLog2 (n : Nat) : Nat := natLog2Aux n n

/-- The nearest integer to `a / b` (for `b ≥ 1`), ties to even: the IEEE-754
round-to-nearest-even rule at integer granularity. -/
def roundHalfEven (a b : Nat) : Nat :=
  let q := a / b
  let r := a % b
  if 2 * r < b then q
  else if b < 2 * r then q + 1
  else if q % 2 = 0 then q else q + 1

/-- `⌊log₂ (a / b)⌋` for `a, b ≥ 1`. -/
def ratLog2 (a b : Nat) : Int :=
  let la := natLog2 a
  let lb := natLog2 b
  if lb ≤ la then
    (if b * 2 ^ (la - lb) ≤ a then (la - lb : Int) else (la - lb : Int) - 1)
  else
    (if b ≤ a * 2 ^ (lb - la) then -((lb - la : Nat) : Int) else -((lb - la : Nat) : Int) - 1)

/-- The binary64 value nearest to `a / b` (for `a, b ≥ 1`), as a dyadic pair
`(m, s)` with value `m · 2^s` and `m` in `[2^52, 2^53]`: round to nearest,
ties to even, at 53 significant bits.  The exponent is unbounded, so this is
bit-exact for every quotient in the binary64 normal range — in particular
for every quotient of the evaluator's counters by a catalog threshold
(`a/b ≥ 1/500` rules out subnormals; beyond `2^1024` CPython raises
`OverflowError`, outside the modelled range). -/
def rnMantissa (a b : Nat) : Nat × Int :=
  let s : Int := ratLog2 a b - 52
  if 0 ≤ s then (roundHalfEven a (b * 2 ^ s.toNat), s)
  else (roundHalfEven (a * 2 ^ (-s).toNat) b, s)

/-- Python's `int((current / target) * 100)` for non-negative integers with
`target ≥ 1`, computed as CPython does: `current / target` is the correctly
rounded binary64 quotient `m·2^s`; multiplying by 100 (exact as a float)
gives the correctly rounded `m'·2^(s'+s)` with `(m', s') = RN(m·100)`;
`int` truncates toward zero, which on this non-negative value is the floor,
i.e. a binary shift of the mantissa. -/
def pyTruncPercent (current target : Nat) : Nat :=
  if current = 0 then 0
  else
    let q := rnMantissa current target
    let p := rnMantissa (q.1 * 100) 1
    let e : Int := p.2 + q.2
    if 0 ≤ e then p.1 * 2 ^ e.toNat else p.1 / 2 ^ (-e).toNat

/-- `_calculate_progress_to_next` from `tools/achievement_tool.py`
(lines 169-225).  The percentage `min(100, int((current / target) * 100))`
is computed in binary64 floats; `pyTruncPercent` models the two correctly
rounded float operations exactly, so e.g. `current = 57, target = 100`
gives 56 (the float product `0.57 * 100` is just below 57), not the exact
floor 57. -/
def calculate_progress_to_next (current_achievement : AchievementType) (progress : Progress)
    (earned_badges : List String) : Option ProgressToNext :=
  if current_achievement ∈ vocabulary_sequence then
    let current_idx := vocabulary_sequence.indexOf current_achievement
    if current_idx < vocabulary_sequence.length - 1 then
      match vocabulary_sequence.get? (current_idx + 1) with
      | none => none
      | some next_achievement =>
        match get_achievement_definition next_achievement with
        | none => none
        | some next_def =>
          match next_def.criteria.lookup "words_learned" with
          | none => none
          | some target_words =>
            some ⟨next_achievement.value, progress.words_learned, target_words,
                  min 100 (pyTruncPercent progress.words_learned target_words)⟩
    else none
  else if current_achievement ∈ reading_sequence then
    let current_idx := reading_sequence.indexOf current_achievement
    if current_idx < reading_sequence.length - 1 then
      match reading_sequence.get? (current_idx + 1) with
      | none => none
      | some next_achievement =>
        match get_achievement_definition next_achievement with
        | none => none
        | some next_def =>
          match next_def.criteria.lookup "lessons_completed" with
          | none => none
          | some target_lessons =>
            some ⟨next_achievement.value, progress.lessons_completed, target_lessons,
                  min 100 (pyTruncPercent progress.lessons_completed target_lessons)⟩
    else none
  else none

/-- The `Achievement` record created at lines 149-162 of
`tools/achievement_tool.py`.  The random `achievement_id` (uuid) and the
wall-clock `unlocked_at` timestamp are environment inputs not referenced by
any claim and are omitted from the model. -/
structure Achievement where
  student_id : String
  achievement_type : String
  title : String
  description : String
  badge_icon : String
  badge_color : String
  xp_awarded : Nat
  rarity : String
  category : String
  progress_towards_next : Option ProgressToNext
deriving DecidableEq, Repr

/-- Builds the `Achievement` record for one unlocked achievement type from
its catalog definition (lines 142-162). -/
def mkAchievement (student_id : String) (a : AchievementType) (p : Progress)
    (earned : List String) : Achievement :=
  { student_id := student_id
    achievement_type := a.value
    title := (ACHIEVEMENT_DEFINITIONS a).title
    description := (ACHIEVEMENT_DEFINITIONS a).description
    badge_icon := (ACHIEVEMENT_DEFINITIONS a).icon
    badge_color := (ACHIEVEMENT_DEFINITIONS a).color
    xp_awarded := (ACHIEVEMENT_DEFINITIONS a).xp_reward
    rarity := (ACHIEVEMENT_DEFINITIONS a).rarity.value
    category := (ACHIEVEMENT_DEFINITIONS a).category
    progress_towards_next := calculate_progress_to_next a p earned }

/-- `check_and_award_achievements` from `tools/achievement_tool.py`:
builds `achievements_to_check` (lines 45-135) and converts each candidate
whose definition lookup succeeds into an `Achievement` (lines 137-166). -/
def check_and_award_achievements (student_id : String) (trigger_event : String)
    (current_progress : Progress) (already_earned_badges : List String) : List Achievement :=
  (achievementsToCheck trigger_event current_progress already_earned_badges).filterMap
    fun achievement_type =>
      match get_achievement_definition achievement_type with
      | some _ => some (mkAchievement student_id achievement_type current_progress
                          already_earned_badges)
      | none => none

/-- The unlock condition of each achievement type under a given trigger
event, read off the guards of lines 45-135; achievement types the evaluator
never checks (the "special" category) get `False`. -/
def unlockCond (t : String) (p : Progress) : AchievementType → Prop
  | .WORD_SPROUT => (t = "lesson_completed" ∨ t = "quiz_completed") ∧ p.words_learned ≥ 10
  | .WORD_COLLECTOR => (t = "lesson_completed" ∨ t = "quiz_completed") ∧ p.words_learned ≥ 50
  | .WORD_WIZARD => (t = "lesson_completed" ∨ t = "quiz_completed") ∧ p.words_learned ≥ 100
  | .WORD_EXPERT => (t = "lesson_completed" ∨ t = "quiz_completed") ∧ p.words_learned ≥ 250
  | .VOCABULARY_MASTER => (t = "lesson_completed" ∨ t = "quiz_completed") ∧ p.words_learned ≥ 500
  | .GRAMMAR_ROOKIE => t = "quiz_perfect" ∧ p.grammarTopic = true ∧ p.perfect_quizzes ≥ 1
  | .GRAMMAR_GURU => t = "quiz_perfect" ∧ p.grammarTopic = true ∧ p.perfect_quizzes ≥ 5
  | .GRAMMAR_EXPERT => t = "quiz_perfect" ∧ p.grammarTopic = true ∧ p.perfect_quizzes ≥ 10
  | .GRAMMAR_MASTER => t = "quiz_perfect" ∧ p.grammarTopic = true ∧ p.perfect_quizzes ≥ 20
  | .FIRST_LESSON => t = "lesson_completed" ∧ p.lessons_completed ≥ 1
  | .BOOKWORM => t = "lesson_completed" ∧ p.lessons_completed ≥ 10
  | .AVID_READER => t = "lesson_completed" ∧ p.lessons_completed ≥ 25
  | .LIBRARY_CARD => t = "lesson_completed" ∧ p.lessons_completed ≥ 50
  | .LITERATURE_LOVER => t = "lesson_completed" ∧ p.lessons_completed ≥ 100
  | .READING_CHAMPION => t = "lesson_completed" ∧ p.lessons_completed ≥ 250
  | .HOT_STREAK => t = "daily_streak_updated" ∧ p.consecutive_days ≥ 3
  | .DEDICATED_LEARNER => t = "daily_streak_updated" ∧ p.consecutive_days ≥ 7
  | .WEEK_WARRIOR => t = "daily_streak_updated" ∧ p.consecutive_days ≥ 14
  | .UNSTOPPABLE => t = "daily_streak_updated" ∧ p.consecutive_days ≥ 30
  | .PERSISTENT_LEGEND => t = "daily_streak_updated" ∧ p.consecutive_days ≥ 100
  | .QUICK_DRAW => t = "fast_answer" ∧ p.fast_answers ≥ 1
  | .SPEED_DEMON => t = "fast_answer" ∧ p.fast_answers ≥ 10
  | .LIGHTNING_FAST => t = "fast_answer" ∧ p.fast_answers ≥ 50
  | .TIME_MASTER => t = "fast_answer" ∧ p.fast_answers ≥ 100
  | .SHARPSHOOTER => t = "quiz_completed" ∧ p.quiz_score ≥ 90 ∧ p.high_score_quizzes ≥ 1
  | .ACE_STUDENT => t = "quiz_completed" ∧ p.high_score_quizzes ≥ 5
  | .PERFECTIONIST => t = "quiz_completed" ∧ p.quiz_score = 100
  | .CHAMPION => t = "quiz_completed" ∧ p.perfect_quizzes ≥ 5
  | .FLAWLESS => t = "quiz_completed" ∧ p.perfect_quizzes ≥ 20
  | .LEVEL_5 => t = "level_up" ∧ p.level ≥ 5
  | .LEVEL_10 => t = "level_up" ∧ p.level ≥ 10
  | .LEVEL_15 => t = "level_up" ∧ p.level ≥ 15
  | .LEVEL_20 => t = "level_up" ∧ p.level ≥ 20
  | .LEVEL_30 => t = "level_up" ∧ p.level ≥ 30
  | .EARLY_BIRD => False
  | .NIGHT_OWL => False
  | .WEEKEND_WARRIOR => False
  | .COMEBACK_KID => False
  | .HELPING_HAND => False

/-! ## Adaptive Progression Controller (`tools/section_generator.py`) -/

/-- The `DifficultyLevel` enum from `models/constants.py`. -/
inductive DifficultyLevel
  | BEGINNER | INTERMEDIATE | ADVANCED
deriving DecidableEq, Repr

def DifficultyLevel.value : DifficultyLevel → String
  | .BEGINNER => "beginner"
  | .INTERMEDIATE => "intermediate"
  | .ADVANCED => "advanced"

/-- One section of a lesson plan, restricted to the fields
`generate_section_content` reads for its adaptation decision
(`difficulty`, `skill_areas`; `topic` and `learning_objectives` only feed
the opaque content-generation prompt). -/
structure SectionPlan where
  topic : String
  difficulty : DifficultyLevel
  skill_areas : List String
deriving DecidableEq, Repr

/-- A lesson plan: the ordered sections (the generator indexes
`lesson_plan.sections[section_index]`). -/
structure LessonPlan where
  subject : String
  sections : List SectionPlan
deriving DecidableEq, Repr

/-- The `previous_section_performance` dict (docstring of
`generate_section_content`, lines 33-41); each documented key may be
absent.  `quiz_score` is a float percentage, modelled as a rational. -/
structure PrevPerformance where
  section_number : Option Int
  quiz_score : Option ℚ
  correct_answers : Option Int
  total_questions : Option Int
  skill_scores : Option (List (String × ℚ))
  struggles : Option (List String)
deriving DecidableEq, Repr

/-- Python truthiness of the performance dict (over its documented keys):
a dict is truthy iff it is non-empty. -/
def PrevPerformance.isTruthy (p : PrevPerformance) : Bool :=
  p.section_number.isSome || p.quiz_score.isSome || p.correct_answers.isSome ||
  p.total_questions.isSome || p.skill_scores.isSome || p.struggles.isSome

/-- Python list indexing `l[i]`: non-negative indices from the front,
negative indices from the back, `none` (IndexError) outside `[-len, len)`. -/
def pyIndex {α : Type} (l : List α) (i : Int) : Option α :=
  if 0 ≤ i then l.get? i.toNat
  else if (-i).toNat ≤ l.length then l.get? (l.length - (-i).toNat)
  else none

/-- The adaptation outcome of `generate_section_content`: the
`adjusted_difficulty` and `adjusted_skills` handed to the content
generator (lines 62-89 of `tools/section_generator.py`). -/
structure SectionAdaptation where
  difficulty : DifficultyLevel
  skill_areas : List String
deriving DecidableEq, Repr

/-- Lines 62-89 of `tools/section_generator.py`: the adaptive difficulty
and skill adjustment.  `list(set(...))` is modelled as `List.dedup`
(CPython's set iteration order is an implementation detail; only the
membership of the result is specified). -/
def adaptSection (section_plan : SectionPlan) (section_index : Int)
    (previous_section_performance : Option PrevPerformance) : SectionAdaptation :=
  let adjusted_difficulty := section_plan.difficulty
  let adjusted_skills := section_plan.skill_areas
  match previous_section_performance with
  | none => ⟨adjusted_difficulty, adjusted_skills⟩
  | some prev =>
    if prev.isTruthy = true ∧ section_index > 0 then
      let quiz_score : ℚ := prev.quiz_score.getD 70
      let struggles : List String := prev.struggles.getD []
      let adjusted_difficulty :=
        if quiz_score < 50 then DifficultyLevel.BEGINNER
        else if quiz_score < 70 then
          if section_plan.difficulty = DifficultyLevel.ADVANCED then DifficultyLevel.INTERMEDIATE
          else section_plan.difficulty
        else if quiz_score ≥ 90 then
          if section_plan.difficulty ≠ DifficultyLevel.ADVANCED then DifficultyLevel.ADVANCED
          else section_plan.difficulty
        else adjusted_difficulty
      let adjusted_skills :=
        if struggles ≠ [] then (section_plan.skill_areas ++ struggles.take 2).dedup
        else adjusted_skills
      ⟨adjusted_difficulty, adjusted_skills⟩
    else ⟨adjusted_difficulty, adjusted_skills⟩

/-- `generate_section_content` from `tools/section_generator.py`, restricted
to its rule logic: the explicit `ValueError` raise for
`section_index >= len(lesson_plan.sections)` (lines 56-57), the
`IndexError` Python raises on `lesson_plan.sections[section_index]` for an
index below `-len`, and the adaptation of lines 62-89.  The lesson/quiz
content generation that follows (calls into the opaque AI content
generator, wrapped in `try/except` with fallbacks) cannot raise out of the
function and does not affect the adaptation result. -/
def generate_section_content (lesson_plan : LessonPlan) (section_index : Int)
    (previous_section_performance : Option PrevPerformance) :
    Except String SectionAdaptation :=
  if (lesson_plan.sections.length : Int) ≤ section_index then
    .error "ValueError: Section index out of range"
  else
    match pyIndex lesson_plan.sections section_index with
    | none => .error "IndexError: list index out of range"
    | some section_plan =>
      .ok (adaptSection section_plan section_index previous_section_performance)

/-- `True` on `.ok`, `False` on `.error`: "the call does not raise". -/
def noRaise {α : Type} (r : Except String α) : Prop :=
  match r with
  | .ok _ => True
  | .error _ => False

/-! ## Progress Analyzer (`tools/progress_analyzer.py`) -/

/-- A record of `recent_quizzes`; the analyzer reads `score_percentage`
(default 0) and `topic` (default ""). -/
structure QuizRecord where
  score_percentage : Option ℚ
  topic : Option String
deriving DecidableEq, Repr

/-- A record of `recent_lessons`; the analyzer reads `time_spent_seconds`
and `completion_percentage` (default 0). -/
structure LessonRecord where
  time_spent_seconds : Option ℚ
  completion_percentage : Option ℚ
deriving DecidableEq, Repr

/-- The `ProgressAnalysis` result of `analyze_learning_progress`
(`analysis_date` and `best_time_of_day` omitted: wall clock and a constant
`None`). -/
structure ProgressAnalysis where
  student_id : String
  score_trend : String
  learning_velocity : String
  topics_mastered : List String
  topics_struggling : List String
  next_recommended_topic : String
  difficulty_adjustment : String
  topics_to_review : List String
  strengths_identified : List String
  areas_for_improvement : List String
  estimated_grade_level_readiness : ℚ
  avg_time_per_lesson_minutes : ℚ
  completion_rate : ℚ
deriving Repr

/-- `analyze_learning_progress` from `tools/progress_analyzer.py`.
Python float arithmetic is modelled with exact rationals. -/
def analyze_learning_progress (student_id : String) (recent_lessons : List LessonRecord)
    (recent_quizzes : List QuizRecord) (timeframe_days : Nat) : ProgressAnalysis :=
  let score_trend :=
    if recent_quizzes.length ≥ 3 then
      let recent_scores := (recent_quizzes.drop (recent_quizzes.length - 3)).map
        (fun q => q.score_percentage.getD 0)
      let first_avg := (recent_scores.take 2).sum / 2
      let last_score := recent_scores.getLastD 0
      if last_score > first_avg + 10 then "improving"
      else if last_score < first_avg - 10 then "declining"
      else "stable"
    else "insufficient_data"
  let learning_velocity :=
    if recent_lessons ≠ [] then
      let avg_time := (recent_lessons.map (fun l => l.time_spent_seconds.getD 0)).sum /
        (recent_lessons.length : ℚ)
      if avg_time < 240 then "fast"
      else if avg_time > 600 then "slow"
      else "moderate"
    else "unknown"
  let topics_mastered :=
    ((recent_quizzes.filter (fun q => q.score_percentage.getD 0 ≥ 90)).map
      (fun q => q.topic.getD "")).dedup
  let topics_struggling :=
    ((recent_quizzes.filter (fun q => ¬ q.score_percentage.getD 0 ≥ 90 ∧
        q.score_percentage.getD 0 < 70)).map
      (fun q => q.topic.getD "")).dedup
  let (next_recommended_topic, difficulty_adjustment) :=
    if topics_struggling ≠ [] then (topics_struggling.headD "", "maintain")
    else if topics_mastered ≠ [] ∧ topics_mastered.length ≥ 3 then
      ("New advanced topic", "increase")
    else ("Continue current curriculum", "maintain")
  let vocab_scores := (recent_quizzes.filter
    (fun q => containsSub (q.topic.getD "").toLower "vocabulary")).map
    (fun q => q.score_percentage.getD 0)
  let grammar_scores := (recent_quizzes.filter
    (fun q => containsSub (q.topic.getD "").toLower "grammar")).map
    (fun q => q.score_percentage.getD 0)
  let strengths_identified :=
    (if vocab_scores ≠ [] ∧ vocab_scores.sum / (vocab_scores.length : ℚ) ≥ 80
     then ["vocabulary"] else []) ++
    (if grammar_scores ≠ [] ∧ grammar_scores.sum / (grammar_scores.length : ℚ) ≥ 80
     then ["grammar"] else [])
  let areas_for_improvement :=
    (if vocab_scores ≠ [] ∧ ¬ vocab_scores.sum / (vocab_scores.length : ℚ) ≥ 80
     then ["vocabulary"] else []) ++
    (if grammar_scores ≠ [] ∧ ¬ grammar_scores.sum / (grammar_scores.length : ℚ) ≥ 80
     then ["grammar"] else [])
  let completion_rate :=
    if recent_lessons ≠ [] then
      (((recent_lessons.filter (fun l => l.completion_percentage.getD 0 = 100)).length : ℚ) /
        (recent_lessons.length : ℚ)) * 100
    else 0
  let avg_time_per_lesson_minutes :=
    if recent_lessons ≠ [] then
      ((recent_lessons.map (fun l => l.time_spent_seconds.getD 0)).sum /
        (recent_lessons.length : ℚ)) / 60
    else 0
  let estimated_readiness :=
    if recent_quizzes ≠ [] then
      min 100 ((recent_quizzes.map (fun q => q.score_percentage.getD 0)).sum /
        (recent_quizzes.length : ℚ))
    else 50
  { student_id := student_id
    score_trend := score_trend
    learning_velocity := learning_velocity
    topics_mastered := topics_mastered
    topics_struggling := topics_struggling
    next_recommended_topic := next_recommended_topic
    difficulty_adjustment := difficulty_adjustment
    topics_to_review := topics_struggling
    strengths_identified := strengths_identified
    areas_for_improvement := areas_for_improvement
    estimated_grade_level_readiness := estimated_readiness
    avg_time_per_lesson_minutes := avg_time_per_lesson_minutes
    completion_rate := completion_rate }

/-! ## Concrete sample inputs used by witnesses and counterexamples -/

/-- Snapshot with 55 words learned (spec §8 end-to-end scenario). -/
def p55words : Progress := ⟨some 55, none, none, none, none, none, none, none, none⟩

/-- Snapshot with exactly 10 words learned. -/
def p10words : Progress := ⟨some 10, none, none, none, none, none, none, none, none⟩

/-- Snapshot with 50 words learned. -/
def p50words : Progress := ⟨some 50, none, none, none, none, none, none, none, none⟩

/-- Snapshot whose last quiz scored exactly 100. -/
def pScore100 : Progress := ⟨none, none, none, none, none, none, none, some 100, none⟩

/-- Snapshot whose last quiz scored 101 (counter-wise above `pScore100`). -/
def pScore101 : Progress := ⟨none, none, none, none, none, none, none, some 101, none⟩

/-- Snapshot with a 3-day streak. -/
def pStreak3 : Progress := ⟨none, none, some 3, none, none, none, none, none, none⟩

/-- Sections of a sample three-section plan (the source uses fixed
three-section plans). -/
def sampleSection1 : SectionPlan := ⟨"Reading the stars", .INTERMEDIATE, ["vocabulary"]⟩

def sampleSection2 : SectionPlan := ⟨"Verbs in motion", .INTERMEDIATE, ["vocabulary"]⟩

def sampleSection3 : SectionPlan := ⟨"Story endings", .ADVANCED, ["grammar"]⟩

/-- A sample three-section plan. -/
def samplePlan : LessonPlan :=
  ⟨"english", [sampleSection1, sampleSection2, sampleSection3]⟩

/-- Previous performance: 42% score, struggles in grammar and spelling
(spec §8 section-adaptation scenario). -/
def perf42 : PrevPerformance := ⟨none, some 42, none, none, none, some ["grammar", "spelling"]⟩

/-- Previous performance carrying only a struggles list (no quiz score). -/
def perfNoScore : PrevPerformance := ⟨none, none, none, none, none, some ["spelling"]⟩

/-- A quiz record with the given score and no topic. -/
def quizScored (s : ℚ) : QuizRecord := ⟨some s, none⟩

/-- Previous performance carrying only a quiz score. -/
def perfScore (s : ℚ) : PrevPerformance := ⟨none, some s, none, none, none, none⟩

/-- Counter-wise dominance as claim C5 words it: every numeric entry of the
snapshot (after the evaluator's defaults) in the second snapshot is at
least the corresponding entry of the first; the quiz topic, the only
non-numeric entry, is unchanged. -/
def dominatesSpec (p1 p2 : Progress) : Prop :=
  p1.words_learned ≤ p2.words_learned ∧ p1.lessons_completed ≤ p2.lessons_completed ∧
  p1.consecutive_days ≤ p2.consecutive_days ∧ p1.perfect_quizzes ≤ p2.perfect_quizzes ∧
  p1.high_score_quizzes ≤ p2.high_score_quizzes ∧ p1.fast_answers ≤ p2.fast_answers ∧
  p1.level ≤ p2.level ∧ p1.quiz_score ≤ p2.quiz_score ∧ p1.topic = p2.topic

/-- Dominance on the cumulative counters only: the most-recent quiz score
and topic (which the evaluator tests for equality and for substring match
respectively, not monotonically) stay unchanged. -/
def dominatesCumulative (p1 p2 : Progress) : Prop :=
  p1.words_learned ≤ p2.words_learned ∧ p1.lessons_completed ≤ p2.lessons_completed ∧
  p1.consecutive_days ≤ p2.consecutive_days ∧ p1.perfect_quizzes ≤ p2.perfect_quizzes ∧
  p1.high_score_quizzes ≤ p2.high_score_quizzes ∧ p1.fast_answers ≤ p2.fast_answers ∧
  p1.level ≤ p2.level ∧ p1.quiz_score = p2.quiz_score ∧ p1.topic = p2.topic

/-- The streak progression in ascending threshold order, as the
specification's list of fixed ordered sequences prescribes.  The source
defines no such sequence: `_calculate_progress_to_next` knows only the
vocabulary and reading sequences. -/
def streak_sequence_spec : List AchievementType :=
  [.HOT_STREAK, .DEDICATED_LEARNER, .WEEK_WARRIOR, .UNSTOPPABLE, .PERSISTENT_LEGEND]

/-! ## Evaluator lemmas -/

theorem mem_ite_nil {α : Type} {P : Prop} [Decidable P] {xs : List α} {b : α} :
    b ∈ (if P then xs else []) ↔ P ∧ b ∈ xs := by
  split <;> simp_all

theorem mem_tierCheck {c : Prop} [Decidable c] {a b : AchievementType} {e : List String} :
    b ∈ tierCheck c a e ↔ b = a ∧ c ∧ a.value ∉ e := by
  unfold tierCheck
  split <;> simp_all

/-- Membership in the candidate list is exactly the unlock condition plus
not-already-earned. -/
theorem mem_achievementsToCheck {t : String} {p : Progress} {e : List String}
    {a : AchievementType} :
    a ∈ achievementsToCheck t p e ↔ unlockCond t p a ∧ a.value ∉ e := by
  cases a <;>
    simp [achievementsToCheck, vocabularyChecks, readingChecks, grammarChecks, streakChecks,
      speedChecks, accuracyChecks, levelChecks, mem_ite_nil, mem_tierCheck, unlockCond] <;>
    tauto

/-- The definition lookup succeeds for every candidate, so the evaluator
maps each candidate to its `Achievement` record. -/
theorem check_eq_map (sid t : String) (p : Progress) (e : List String) :
    check_and_award_achievements sid t p e =
      (achievementsToCheck t p e).map (fun a => mkAchievement sid a p e) := by
  unfold check_and_award_achievements
  generalize achievementsToCheck t p e = l
  induction l with
  | nil => rfl
  | cons h tl ih => simpa [List.filterMap_cons, get_achievement_definition] using ih

theorem mem_check {sid t : String} {p : Progress} {e : List String} {x : Achievement} :
    x ∈ check_and_award_achievements sid t p e ↔
      ∃ a, (unlockCond t p a ∧ a.value ∉ e) ∧ mkAchievement sid a p e = x := by
  rw [check_eq_map]
  simp [List.mem_map, mem_achievementsToCheck]

/-! ## Claim theorems -/

/-- C1: the leveling agreement fails on the code.  `calculate_xp_for_level`
returns the per-level increment `floor(100·1.5^(L-1))` while
`LEVEL_XP_THRESHOLDS` stores cumulative totals, so
`levelForXp (calculate_xp_for_level L) = L` fails at `L = 1` (giving 2),
at `L = 3` (giving 2) and at `L = 30` (giving 28); the two tables agree at
no level except `L = 2`. -/
theorem leveling_agreement_fails :
    calculate_xp_for_level 1 = 100 ∧ levelForXp 100 = 2 ∧
    calculate_xp_for_level 3 = 225 ∧ levelForXp 225 = 2 ∧
    calculate_xp_for_level 30 = 12783403 ∧ levelForXp 12783403 = 28 ∧
    LEVEL_XP_THRESHOLDS 2 = 100 ∧ calculate_xp_for_level 2 = 150 := by
  decide

/-- C2: the evaluator is idempotent.  Once the achievement-type identifiers
of a first call are merged into the already-earned list, a second call with
the same trigger event and unchanged snapshot returns the empty list. -/
theorem evaluator_idempotent (student_id trigger_event : String) (p : Progress)
    (earned : List String) :
    check_and_award_achievements student_id trigger_event p
      (earned ++ (check_and_award_achievements student_id trigger_event p earned).map
        (fun a => a.achievement_type)) = [] := by
  rw [List.eq_nil_iff_forall_not_mem]
  intro x hx
  rw [mem_check] at hx
  obtain ⟨a, ⟨hc, hne⟩, -⟩ := hx
  apply hne
  rw [List.mem_append]
  by_cases he : a.value ∈ earned
  · exact Or.inl he
  · refine Or.inr ?_
    rw [check_eq_map, List.map_map]
    exact List.mem_map.mpr ⟨a, mem_achievementsToCheck.mpr ⟨hc, he⟩, rfl⟩

/-- C3 counterexample: trigger event `"quiz_completed"` with 10 learned
words unlocks the Word Sprout achievement, whose category is
`"vocabulary"`, not `"accuracy"` — vocabulary criteria are not activated
only by `"lesson_completed"`. -/
theorem quiz_completed_awards_vocabulary :
    (check_and_award_achievements "student-1" "quiz_completed" p10words []).map
      (fun a => a.category) = ["vocabulary"] ∧ ("vocabulary" : String) ≠ "accuracy" := by
  exact ⟨rfl, by decide⟩

/-- C3 amended: every achievement returned for trigger event
`"quiz_completed"` has category `"accuracy"` or `"vocabulary"` (the
vocabulary block is activated by both `"lesson_completed"` and
`"quiz_completed"`), and every achievement returned for
`"lesson_completed"` has category `"vocabulary"` or `"reading"`. -/
theorem trigger_category_selectivity (student_id : String) (p : Progress) (e : List String) :
    ((check_and_award_achievements student_id "quiz_completed" p e).all
      (fun a => a.category == "accuracy" || a.category == "vocabulary")) = true ∧
    ((check_and_award_achievements student_id "lesson_completed" p e).all
      (fun a => a.category == "vocabulary" || a.category == "reading")) = true := by
  constructor <;>
  · rw [List.all_eq_true]
    intro x hx
    rw [mem_check] at hx
    obtain ⟨a, ha, rfl⟩ := hx
    revert ha
    cases a <;> simp [unlockCond, mkAchievement, ACHIEVEMENT_DEFINITIONS]

/-- Unlock conditions are monotone under cumulative-counter dominance. -/
theorem unlockCond_mono {t : String} {p1 p2 : Progress} (h : dominatesCumulative p1 p2)
    {a : AchievementType} (hc : unlockCond t p1 a) : unlockCond t p2 a := by
  obtain ⟨hw, hl, hd, hp, hh, hf, hlv, hsc, htp⟩ := h
  have hg : p1.grammarTopic = p2.grammarTopic := by
    unfold Progress.grammarTopic
    rw [htp]
  revert hc
  cases a <;> simp only [unlockCond, hsc, hg, ge_iff_le] <;>
    first
    | exact id
    | exact fun hc => ⟨hc.1, le_trans hc.2 hw⟩
    | exact fun hc => ⟨hc.1, le_trans hc.2 hl⟩
    | exact fun hc => ⟨hc.1, le_trans hc.2 hd⟩
    | exact fun hc => ⟨hc.1, le_trans hc.2 hp⟩
    | exact fun hc => ⟨hc.1, le_trans hc.2 hf⟩
    | exact fun hc => ⟨hc.1, le_trans hc.2 hh⟩
    | exact fun hc => ⟨hc.1, le_trans hc.2 hlv⟩
    | exact fun hc => ⟨hc.1, hc.2.1, le_trans hc.2.2 hp⟩
    | exact fun hc => ⟨hc.1, hc.2.1, le_trans hc.2.2 hh⟩

/-- C5 counterexample: the snapshot with last quiz score 101 dominates the
one with score 100 counter-wise (as the claim words dominance), yet the
first snapshot unlocks Perfectionist (`last_quiz_score == 100` is an
equality test) and the dominating one unlocks nothing: the returned set
shrinks. -/
theorem perfectionist_breaks_monotonicity :
    dominatesSpec pScore100 pScore101 ∧
    (check_and_award_achievements "student-1" "quiz_completed" pScore100 []).map
      (fun a => a.achievement_type) = ["perfectionist_100"] ∧
    (check_and_award_achievements "student-1" "quiz_completed" pScore101 []).map
      (fun a => a.achievement_type) = [] := by
  refine ⟨?_, rfl, rfl⟩
  unfold dominatesSpec
  decide

/-- C5 amended: with the same trigger event and already-earned set, if the
second snapshot dominates the first on the cumulative counters and keeps
the most-recent quiz score and topic unchanged, the identifiers returned on
the second snapshot include all those returned on the first. -/
theorem evaluator_monotone (student_id t : String) (p1 p2 : Progress) (e : List String)
    (h : dominatesCumulative p1 p2) :
    ∀ x ∈ (check_and_award_achievements student_id t p1 e).map (fun a => a.achievement_type),
      x ∈ (check_and_award_achievements student_id t p2 e).map (fun a => a.achievement_type) := by
  intro x hx
  rw [check_eq_map, List.map_map] at hx ⊢
  obtain ⟨a, ha, rfl⟩ := List.mem_map.mp hx
  rw [mem_achievementsToCheck] at ha
  exact List.mem_map.mpr ⟨a, mem_achievementsToCheck.mpr ⟨unlockCond_mono h ha.1, ha.2⟩, rfl⟩

theorem evaluator_monotone_witness :
    "word_sprout_10" ∈ (check_and_award_achievements "student-1" "lesson_completed" p50words
      []).map (fun a => a.achievement_type) := by
  refine evaluator_monotone "student-1" "lesson_completed" p10words p50words [] ?_
    "word_sprout_10" (by decide)
  unfold dominatesCumulative
  decide

/-- C6 counterexample: a 3-day streak unlocks Hot Streak, the first (not
last) tier of the streak progression, yet the returned instance carries no
"progress toward next" payload — the code computes the payload only for
the vocabulary and reading sequences. -/
theorem streak_payload_missing :
    (check_and_award_achievements "student-1" "daily_streak_updated" pStreak3 []).map
      (fun a => (a.achievement_type, a.progress_towards_next)) = [("hot_streak_3", none)] ∧
    AchievementType.HOT_STREAK ∈ streak_sequence_spec ∧
    streak_sequence_spec.getLast? ≠ some AchievementType.HOT_STREAK := by
  exact ⟨rfl, by decide, by decide⟩

/-- C6 amended: the "progress toward next" payload is computed only for the
vocabulary and reading sequences.  For every snapshot: each non-final tier
of those two sequences gets the next tier's identifier, the next tier's
catalog threshold as target, and as percentage the minimum of 100 and the
`int`-truncation of the binary64 evaluation of `(current/target)*100` —
which differs from the exact `floor(100·current/target)` where the float
product rounds just below an exact integer: at `current=57, target=100`
the code yields 56 where the floor is 57, and at `current=29, target=50`
it yields 57 where the floor is 58.  The final tiers and every achievement
outside these two sequences get no payload.  The spec's end-to-end example
(55 words learned) still yields `current=55, target=100, percentage=55` on
the 50-word tier. -/
theorem progress_payload_vocabulary_reading (p : Progress) (e : List String) :
    (∀ a : AchievementType, a ∉ vocabulary_sequence → a ∉ reading_sequence →
      calculate_progress_to_next a p e = none) ∧
    calculate_progress_to_next .WORD_SPROUT p e =
      some ⟨"word_collector_50", p.words_learned, 50, min 100 (pyTruncPercent p.words_learned 50)⟩ ∧
    calculate_progress_to_next .WORD_COLLECTOR p e =
      some ⟨"word_wizard_100", p.words_learned, 100, min 100 (pyTruncPercent p.words_learned 100)⟩ ∧
    calculate_progress_to_next .WORD_WIZARD p e =
      some ⟨"word_expert_250", p.words_learned, 250, min 100 (pyTruncPercent p.words_learned 250)⟩ ∧
    calculate_progress_to_next .WORD_EXPERT p e =
      some ⟨"vocabulary_master_500", p.words_learned, 500,
            min 100 (pyTruncPercent p.words_learned 500)⟩ ∧
    calculate_progress_to_next .VOCABULARY_MASTER p e = none ∧
    calculate_progress_to_next .FIRST_LESSON p e =
      some ⟨"bookworm_10", p.lessons_completed, 10, min 100 (pyTruncPercent p.lessons_completed 10)⟩ ∧
    calculate_progress_to_next .BOOKWORM p e =
      some ⟨"avid_reader_25", p.lessons_completed, 25,
            min 100 (pyTruncPercent p.lessons_completed 25)⟩ ∧
    calculate_progress_to_next .AVID_READER p e =
      some ⟨"library_card_50", p.lessons_completed, 50,
            min 100 (pyTruncPercent p.lessons_completed 50)⟩ ∧
    calculate_progress_to_next .LIBRARY_CARD p e =
      some ⟨"literature_lover_100", p.lessons_completed, 100,
            min 100 (pyTruncPercent p.lessons_completed 100)⟩ ∧
    calculate_progress_to_next .LITERATURE_LOVER p e =
      some ⟨"reading_champion_250", p.lessons_completed, 250,
            min 100 (pyTruncPercent p.lessons_completed 250)⟩ ∧
    calculate_progress_to_next .READING_CHAMPION p e = none ∧
    (pyTruncPercent 57 100 = 56 ∧ 100 * 57 / 100 = 57) ∧
    (pyTruncPercent 29 50 = 57 ∧ 100 * 29 / 50 = 58) ∧
    (check_and_award_achievements "student-1" "lesson_completed" p55words []).map
      (fun a => (a.achievement_type, a.progress_towards_next)) =
      [("word_sprout_10", some ⟨"word_collector_50", 55, 50, 100⟩),
       ("word_collector_50", some ⟨"word_wizard_100", 55, 100, 55⟩)] := by
  refine ⟨?_, rfl, rfl, rfl, rfl, rfl, rfl, rfl, rfl, rfl, rfl, rfl, by decide, by decide,
    by decide⟩
  intro a hv hr
  cases a <;> first
    | rfl
    | exact absurd (by decide) hv
    | exact absurd (by decide) hr

theorem progress_payload_vocabulary_reading_witness :
    calculate_progress_to_next .HOT_STREAK pStreak3 [] = none :=
  (progress_payload_vocabulary_reading pStreak3 []).1 .HOT_STREAK (by decide) (by decide)

/-! ## Section-generator lemmas -/

/-- At a valid non-negative section index the generator succeeds and returns
the adaptation of that section. -/
theorem generate_eq_ok {plan : LessonPlan} {i : Nat} {sp : SectionPlan}
    (hget : plan.sections.get? i = some sp) (prev : Option PrevPerformance) :
    generate_section_content plan (i : Int) prev = .ok (adaptSection sp (i : Int) prev) := by
  have hlen : i < plan.sections.length := by
    by_contra hle
    rw [List.get?_eq_none.mpr (Nat.le_of_not_lt hle)] at hget
    exact Option.noConfusion hget
  unfold generate_section_content pyIndex
  rw [if_neg (by omega), if_pos (by omega)]
  rw [Int.toNat_natCast, hget]

/-- The adapted difficulty, when the previous performance is truthy and the
index is positive. -/
theorem adaptSection_difficulty (sp : SectionPlan) (idx : Int) (prev : PrevPerformance)
    (hidx : idx > 0) (htr : prev.isTruthy = true) :
    (adaptSection sp idx (some prev)).difficulty =
      (if prev.quiz_score.getD 70 < 50 then .BEGINNER
       else if prev.quiz_score.getD 70 < 70 then
         (if sp.difficulty = .ADVANCED then .INTERMEDIATE else sp.difficulty)
       else if prev.quiz_score.getD 70 ≥ 90 then
         (if sp.difficulty ≠ .ADVANCED then .ADVANCED else sp.difficulty)
       else sp.difficulty) := by
  simp only [adaptSection]
  rw [if_pos (And.intro htr hidx)]

/-- The adapted skill tags, when the previous performance is truthy and the
index is positive. -/
theorem adaptSection_skills (sp : SectionPlan) (idx : Int) (prev : PrevPerformance)
    (hidx : idx > 0) (htr : prev.isTruthy = true) :
    (adaptSection sp idx (some prev)).skill_areas =
      (if prev.struggles.getD [] ≠ [] then
        (sp.skill_areas ++ (prev.struggles.getD []).take 2).dedup
       else sp.skill_areas) := by
  simp only [adaptSection]
  rw [if_pos (And.intro htr hidx)]

/-- `pyIndex` succeeds exactly on indices in `[-len, len)`. -/
theorem pyIndex_isSome {α : Type} (l : List α) (i : Int) :
    (pyIndex l i).isSome = true ↔ -(l.length : Int) ≤ i ∧ i < (l.length : Int) := by
  unfold pyIndex
  split_ifs with h1 h2
  · rw [Option.isSome_iff_ne_none, ne_eq, List.get?_eq_none]
    omega
  · rw [Option.isSome_iff_ne_none, ne_eq, List.get?_eq_none]
    omega
  · simp only [Option.isSome_none, Bool.false_eq_true, false_iff]
    omega

/-- C4: the adaptive difficulty decision table, for an in-range non-first
section whose previous performance carries quiz score `s`: below 50 the
lowest tier; in `[50, 70)` the middle tier if the plan called for the
highest, otherwise unchanged; in `[70, 90)` unchanged; at or above 90 the
highest tier. -/
theorem adaptive_difficulty_table (plan : LessonPlan) (i : Nat) (sp : SectionPlan)
    (prev : PrevPerformance) (s : ℚ) (hget : plan.sections.get? i = some sp)
    (hi : 0 < i) (hs : prev.quiz_score = some s) :
    ∃ o, generate_section_content plan (i : Int) (some prev) = .ok o ∧
      (s < 50 → o.difficulty = .BEGINNER) ∧
      (50 ≤ s → s < 70 → o.difficulty =
        (if sp.difficulty = .ADVANCED then .INTERMEDIATE else sp.difficulty)) ∧
      (70 ≤ s → s < 90 → o.difficulty = sp.difficulty) ∧
      (90 ≤ s → o.difficulty = .ADVANCED) := by
  refine ⟨_, generate_eq_ok hget _, ?_, ?_, ?_, ?_⟩ <;>
    rw [adaptSection_difficulty sp (i : Int) prev (by omega)
      (by unfold PrevPerformance.isTruthy; simp [hs]), hs, Option.getD_some]
  · intro h1
    rw [if_pos h1]
  · intro h1 h2
    rw [if_neg (by linarith), if_pos h2]
  · intro h1 h2
    rw [if_neg (by linarith), if_neg (by linarith), if_neg (by simp; linarith)]
  · intro h1
    rw [if_neg (by linarith), if_neg (by linarith), if_pos h1]
    cases hD : sp.difficulty <;> simp

theorem adaptive_difficulty_table_witness :
    (∃ o, generate_section_content samplePlan 1 (some (perfScore 49)) = .ok o ∧
      o.difficulty = .BEGINNER) ∧
    (∃ o, generate_section_content samplePlan 1 (some (perfScore 50)) = .ok o ∧
      o.difficulty = .INTERMEDIATE) ∧
    (∃ o, generate_section_content samplePlan 1 (some (perfScore 69)) = .ok o ∧
      o.difficulty = .INTERMEDIATE) ∧
    (∃ o, generate_section_content samplePlan 1 (some (perfScore 70)) = .ok o ∧
      o.difficulty = .INTERMEDIATE) ∧
    (∃ o, generate_section_content samplePlan 1 (some (perfScore 89)) = .ok o ∧
      o.difficulty = .INTERMEDIATE) ∧
    (∃ o, generate_section_content samplePlan 1 (some (perfScore 90)) = .ok o ∧
      o.difficulty = .ADVANCED) := by
  refine ⟨?_, ?_, ?_, ?_, ?_, ?_⟩
  · obtain ⟨o, ho, h1, -, -, -⟩ :=
      adaptive_difficulty_table samplePlan 1 sampleSection2 (perfScore 49) 49 rfl
        (by norm_num) rfl
    exact ⟨o, ho, h1 (by norm_num)⟩
  · obtain ⟨o, ho, -, h2, -, -⟩ :=
      adaptive_difficulty_table samplePlan 1 sampleSection2 (perfScore 50) 50 rfl
        (by norm_num) rfl
    exact ⟨o, ho, by rw [h2 (by norm_num) (by norm_num)]; rfl⟩
  · obtain ⟨o, ho, -, h2, -, -⟩ :=
      adaptive_difficulty_table samplePlan 1 sampleSection2 (perfScore 69) 69 rfl
        (by norm_num) rfl
    exact ⟨o, ho, by rw [h2 (by norm_num) (by norm_num)]; rfl⟩
  · obtain ⟨o, ho, -, -, h3, -⟩ :=
      adaptive_difficulty_table samplePlan 1 sampleSection2 (perfScore 70) 70 rfl
        (by norm_num) rfl
    exact ⟨o, ho, h3 (by norm_num) (by norm_num)⟩
  · obtain ⟨o, ho, -, -, h3, -⟩ :=
      adaptive_difficulty_table samplePlan 1 sampleSection2 (perfScore 89) 89 rfl
        (by norm_num) rfl
    exact ⟨o, ho, h3 (by norm_num) (by norm_num)⟩
  · obtain ⟨o, ho, -, -, -, h4⟩ :=
      adaptive_difficulty_table samplePlan 1 sampleSection2 (perfScore 90) 90 rfl
        (by norm_num) rfl
    exact ⟨o, ho, h4 (by norm_num)⟩

/-- C7: for an in-range non-first section, a non-empty struggles list makes
the adjusted skill set equal (as a set) to the union of the plan section's
tags and the first two struggles; an empty or absent struggles list leaves
the plan's tags unchanged. -/
theorem skill_tag_adjustment (plan : LessonPlan) (i : Nat) (sp : SectionPlan)
    (prev : PrevPerformance) (hget : plan.sections.get? i = some sp) (hi : 0 < i) :
    ∃ o, generate_section_content plan (i : Int) (some prev) = .ok o ∧
      (prev.struggles.getD [] ≠ [] →
        ∀ x, x ∈ o.skill_areas ↔
          (x ∈ sp.skill_areas ∨ x ∈ (prev.struggles.getD []).take 2)) ∧
      (prev.struggles.getD [] = [] → o.skill_areas = sp.skill_areas) := by
  refine ⟨_, generate_eq_ok hget _, ?_, ?_⟩
  · intro hne x
    have htr : prev.isTruthy = true := by
      unfold PrevPerformance.isTruthy
      cases hstr : prev.struggles with
      | none => rw [hstr] at hne; simp at hne
      | some l => simp [hstr]
    rw [adaptSection_skills sp (i : Int) prev (by omega) htr, if_pos hne]
    simp [List.mem_dedup, List.mem_append]
  · intro hemp
    by_cases htr : prev.isTruthy = true
    · rw [adaptSection_skills sp (i : Int) prev (by omega) htr, if_neg (by simp [hemp])]
    · simp only [adaptSection]
      rw [if_neg (fun hcon => htr hcon.1)]

theorem skill_tag_adjustment_witness :
    ∃ o, generate_section_content samplePlan 1 (some perf42) = .ok o ∧
      (∀ x, x ∈ o.skill_areas ↔ (x = "vocabulary" ∨ x = "grammar" ∨ x = "spelling")) := by
  obtain ⟨o, ho, h1, -⟩ :=
    skill_tag_adjustment samplePlan 1 sampleSection2 perf42 rfl (by norm_num)
  refine ⟨o, ho, fun x => ?_⟩
  have hx := h1 (by decide) x
  simpa [sampleSection2, perf42, or_assoc] using hx

/-- C8 counterexample: a negative section index does not raise.  With a
three-section plan, index `-1` succeeds (Python's negative indexing selects
the last section) and returns that section's plan unchanged. -/
theorem negative_index_does_not_raise :
    generate_section_content samplePlan (-1) none =
      .ok ⟨.ADVANCED, ["grammar"]⟩ ∧ ((-1 : Int) < 0) := by
  exact ⟨rfl, by decide⟩

/-- C8 amended: `generate_section_content` raises exactly when the section
index is at or beyond the number of sections (the explicit `ValueError`)
or below minus that number (Python's `IndexError` on negative indexing);
for every index in `[-len, len)` it never raises, whatever the
previous-performance input. -/
theorem raise_only_out_of_range (plan : LessonPlan) (idx : Int)
    (prev : Option PrevPerformance) :
    noRaise (generate_section_content plan idx prev) ↔
      (-(plan.sections.length : Int) ≤ idx ∧ idx < (plan.sections.length : Int)) := by
  unfold generate_section_content
  by_cases h1 : (plan.sections.length : Int) ≤ idx
  · rw [if_pos h1]
    simp only [noRaise, false_iff]
    omega
  · rw [if_neg h1]
    have hp := pyIndex_isSome plan.sections idx
    cases hg : pyIndex plan.sections idx with
    | none =>
      rw [hg] at hp
      simp only [Option.isSome_none, Bool.false_eq_true, false_iff] at hp
      simp only [noRaise, false_iff]
      exact hp
    | some sp =>
      rw [hg] at hp
      simp only [Option.isSome_some, true_iff] at hp
      simp only [noRaise, true_iff]
      exact hp

theorem raise_only_out_of_range_witness :
    noRaise (generate_section_content samplePlan 1 (some perf42)) := by
  exact (raise_only_out_of_range samplePlan 1 (some perf42)).mpr (by decide)

/-- C10: a supplied previous-performance record with no quiz-score entry
leaves the section's difficulty exactly as the plan specified (the score
defaults to 70, which falls in the leave-unchanged band; a fully empty
record is falsy and skips adaptation altogether, with the same result). -/
theorem missing_quiz_score_keeps_difficulty (plan : LessonPlan) (i : Nat) (sp : SectionPlan)
    (prev : PrevPerformance) (hget : plan.sections.get? i = some sp) (hi : 0 < i)
    (hq : prev.quiz_score = none) :
    ∃ o, generate_section_content plan (i : Int) (some prev) = .ok o ∧
      o.difficulty = sp.difficulty := by
  refine ⟨_, generate_eq_ok hget _, ?_⟩
  by_cases htr : prev.isTruthy = true
  · rw [adaptSection_difficulty sp (i : Int) prev (by omega) htr, hq]
    norm_num
  · simp only [adaptSection]
    rw [if_neg (fun hcon => htr hcon.1)]

theorem missing_quiz_score_keeps_difficulty_witness :
    ∃ o, generate_section_content samplePlan 1 (some perfNoScore) = .ok o ∧
      o.difficulty = .INTERMEDIATE := by
  obtain ⟨o, ho, hd⟩ :=
    missing_quiz_score_keeps_difficulty samplePlan 1 sampleSection2 perfNoScore rfl
      (by norm_num) rfl
  exact ⟨o, ho, hd⟩

/-! ## Progress Analyzer lemmas -/

/-- The analyzer's readiness field: `min(100, mean quiz score)` for a
non-empty window, 50 otherwise. -/
theorem readiness_eq (sid : String) (lessons : List LessonRecord)
    (quizzes : List QuizRecord) (days : Nat) :
    (analyze_learning_progress sid lessons quizzes days).estimated_grade_level_readiness =
      if quizzes ≠ [] then
        min 100 ((quizzes.map (fun q => q.score_percentage.getD 0)).sum /
          (quizzes.length : ℚ))
      else 50 := rfl

/-- C9 counterexample: the code clamps the mean only from above
(`min(100, avg)`), not to `[0, 100]`: one well-typed quiz record with
`score_percentage = -50` yields a readiness of `-50`, below 0. -/
theorem readiness_can_go_below_zero :
    (analyze_learning_progress "student-1" [] [quizScored (-50)]
      7).estimated_grade_level_readiness = -50 ∧ ((-50 : ℚ) < 0) := by
  constructor
  · rw [readiness_eq, if_pos (by simp)]
    norm_num [quizScored]
  · norm_num

/-- C9 amended: the estimated grade-level readiness equals
`min(100, mean quiz score)` for a non-empty quiz window and 50 for an
empty one; it therefore never exceeds 100, and it is non-negative whenever
every score in the window is non-negative (there is no lower clamp for
negative scores). -/
theorem readiness_mean_clamped_above (sid : String) (lessons : List LessonRecord)
    (quizzes : List QuizRecord) (days : Nat) :
    (analyze_learning_progress sid lessons quizzes days).estimated_grade_level_readiness ≤
      100 ∧
    (quizzes = [] →
      (analyze_learning_progress sid lessons quizzes days).estimated_grade_level_readiness =
        50) ∧
    (quizzes ≠ [] →
      (analyze_learning_progress sid lessons quizzes days).estimated_grade_level_readiness =
        min 100 ((quizzes.map (fun q => q.score_percentage.getD 0)).sum /
          (quizzes.length : ℚ))) ∧
    ((∀ q ∈ quizzes, 0 ≤ q.score_percentage.getD 0) →
      0 ≤ (analyze_learning_progress sid lessons quizzes
        days).estimated_grade_level_readiness) := by
  refine ⟨?_, ?_, ?_, ?_⟩
  · rw [readiness_eq]
    split_ifs
    · exact min_le_left _ _
    · norm_num
  · intro h
    rw [readiness_eq, if_neg (by simp [h])]
  · intro h
    rw [readiness_eq, if_pos h]
  · intro h
    rw [readiness_eq]
    split_ifs with hq
    · refine le_min (by norm_num) (div_nonneg ?_ (Nat.cast_nonneg _))
      refine List.sum_nonneg ?_
      intro x hx
      obtain ⟨q, hq', rfl⟩ := List.mem_map.mp hx
      exact h q hq'
    · norm_num

theorem readiness_mean_clamped_above_witness :
    0 ≤ (analyze_learning_progress "student-1" [] [quizScored 80]
      7).estimated_grade_level_readiness := by
  exact (readiness_mean_clamped_above "student-1" [] [quizScored 80] 7).2.2.2 (by decide)

end AITutor
